import Mathlib

/-
Verification of the rendering-orchestration core of STDLoc
(src/gaussian_renderer/__init__.py).

The file shallowly embeds the control flow of the four public render entry
points (render_gsplat, render_gsplat_2dgs, render_from_pose_gsplat,
render_from_pose_gsplat_2dgs) and the two visibility probers
(get_render_visible_mask, get_render_visible_mask_2dgs).

Modelling conventions:
- The external differentiable rasterizer (gsplat.rasterization /
  gsplat.rasterization_2dgs) is opaque.  Each invocation is recorded as a
  `RasterCall` value holding exactly the arguments the Python code passes
  that the verified properties inspect (scales, payload shape, width,
  height, backgrounds, tile_size, and whether a `rasterize_mode` entry is
  still present in the forwarded `**rasterize_args`).
- The per-primitive screen radii produced by pass 1 (`info["radii"]`,
  already squeezed of its leading batch axis) are an input `radii : List ℤ`
  of each model, since they are computed by the external rasterizer.
- Tensors are lists (of lists) of scalars and tensor shapes are `List ℕ`.
  The real-valued tensor entries of the program are carried by ℤ: every
  property verified below is structural (padding with the constant 1,
  boolean-mask selection, shapes, channel counts, zeroing, zero-vs-nonzero
  gradient components) and uses nothing of the scalar type beyond 0, 1, +
  and decidable equality, so the integer carrier is faithful.
- `math.tan` is modelled by `Real.tan` in the separate real-valued
  intrinsics model `buildIntrinsics`.
-/

/-- The primitive store (`pc : GaussianModel`) as seen by the renderer:
`n` primitives (`get_xyz` row count), `scaleCols` = `get_scaling.shape[1]`,
`shK` = the spherical-harmonic coefficient count of `get_features`
(shape [N, K, 3]), `featDim` = the per-primitive local-feature dimension of
`get_loc_feature` (shape [N, featDim]), and `scaling` = the rows of
`get_scaling`. -/
structure GaussianPC where
  n : Nat
  scaleCols : Nat
  shK : Nat
  featDim : Nat
  scaling : List (List ℤ)
deriving DecidableEq

/-- The error taxonomy named by the specification (§7).  Only
`gradientUnavailable` corresponds to an exception the source actually
handles (the bare `except: pass` around `retain_grad`); `shapeMismatch` and
`invalidGeometry` appear in the spec's words and are used only by the
spec-side comparison definitions below. -/
inductive RenderError
  | gradientUnavailable
  | shapeMismatch
  | invalidGeometry
deriving DecidableEq

/-- The optional gradient-retention request of pass 1
(`info["means2d"].retain_grad()` at lines 215-216 / 479-480, and
`info["gradient_2dgs"].retain_grad()` at lines 347-348 / 599-600): it
either succeeds or raises; `avail` says whether the collaborator supports
retention on this tensor. -/
def retain_grad_op (avail : Bool) : Except RenderError Unit :=
  if avail then Except.ok () else Except.error RenderError.gradientUnavailable

/-- The `try: ... except: pass` wrapper around the gradient-retention
request (lines 215-218, 347-350, 479-482, 599-602): a raised exception is
swallowed and execution continues; the returned flag records whether the
gradient was actually retained. -/
def absorb (e : Except RenderError Unit) : Bool :=
  match e with
  | Except.ok _ => true
  | Except.error _ => false

/-- Planar-variant scale padding (lines 95-103, 276-282, 548-554):
`torch.cat([scales, torch.ones(N, 1)], dim=-1)` appends a constant 1
to every per-primitive scale row. -/
def padScales (s : List (List ℤ)) : List (List ℤ) :=
  s.map (fun r => r ++ [1])

/-- Boolean-mask row selection, `t[visible_mask]` on the primitive axis. -/
def maskSelect {α : Type} : List α → List Bool → List α
  | [], _ => []
  | _, [] => []
  | a :: as, b :: bs => if b then a :: maskSelect as bs else maskSelect as bs

/-- `torch.Tensor.squeeze()` with no argument, on a shape: every axis of
size 1 is removed (axes of any other size, including 0, are kept). -/
def squeezeAll (shape : List Nat) : List Nat :=
  shape.filter (fun d => decide (d ≠ 1))

/-- The pass-1 geometric visibility test `radii > 0`
(lines 214/250, 345/388, 477/515, 597/639). -/
def visMask (radii : List ℤ) : List Bool :=
  radii.map (fun r => decide (0 < r))

/-- Number of primitives selected by `visible_mask`, i.e. the row count of
`t[visible_mask]`. -/
def visCount (radii : List ℤ) : Nat :=
  (visMask radii).count true

/-- Resolution cap of the camera-driven entry points (lines 174-178 and
288-292): `max_edge = max(width, height); if max_edge > longest_edge:
factor = longest_edge / max_edge; width, height = int(width * factor),
int(height * factor)`.  `int()` truncation of the nonnegative float
product `width * (longest_edge / max_edge)` is modelled by the exact
integer division `(width * longest_edge) / max_edge` (floor; Python's
binary-float evaluation agrees at the inputs used below). -/
def capResolution (width height longest_edge : ℤ) : ℤ × ℤ :=
  if longest_edge < max width height then
    (width * longest_edge / max width height,
     height * longest_edge / max width height)
  else (width, height)

/-- Shape of the per-primitive appearance payload handed to pass 1
(lines 163-168 / 306-311): the supplied `override_color` tensor if any,
else `pc.get_features` of shape [N, K, 3].  The source never checks the
override shape against the primitive count. -/
def colorsShape (pc : GaussianPC) (override_color : Option (List Nat)) : List Nat :=
  match override_color with
  | some s => s
  | none => [pc.n, pc.shK, 3]

/-- Background resolution of `render_gsplat_2dgs` (lines 313-318):
`None` becomes `torch.zeros(4)`; a supplied 3-channel value is widened to
4 channels by `torch.cat([bg_color, bg_color[:1]])`; anything else passes
through unchanged. -/
def widen_bg_2dgs (bg_color : Option (List ℤ)) : List ℤ :=
  match bg_color with
  | none => [0, 0, 0, 0]
  | some b => if b.length = 3 then b ++ b.take 1 else b

/-- One invocation of the external rasterizer, recording the arguments the
verified properties inspect.  `backgrounds = none` means the keyword was
not passed at all (the feature pass never passes it); `tile_size = none`
likewise means the rasterizer's own default tiling is used.
`has_rasterize_mode` records whether the forwarded `**rasterize_args`
still contains a caller-supplied `rasterize_mode` entry. -/
structure RasterCall where
  scales : List (List ℤ)
  colors_shape : List Nat
  width : ℤ
  height : ℤ
  backgrounds : Option (List ℤ)
  tile_size : Option Nat
  has_rasterize_mode : Bool
deriving DecidableEq

/-- The fields of the returned result dict that the verified properties
inspect.  `viewspace_retained` is true iff the `retain_grad` request of
pass 1 succeeded (the `viewspace_points` tensor itself is returned in
either case); `feature_map_present` is false iff `rgb_only` suppressed
pass 2 (`feat_map = None`). -/
structure RenderResultM where
  visibility_filter : List Bool
  radii : List ℤ
  viewspace_retained : Bool
  feature_map_present : Bool
deriving DecidableEq

/-- `render_gsplat_2dgs` (lines 256-391).  In source order: the scale rows
are padded (276-282), a caller-supplied `rasterize_mode` is deleted from
`rasterize_args` (284-285), the resolution cap is applied to `width` and
`height` before the intrinsics are built (288-292) - so BOTH rasterizer
invocations below use the capped dimensions - the background is defaulted
or widened (313-318), pass 1 runs with the padded scales and the background
(320-339), the visibility mask is `radii > 0` (345), the `retain_grad`
request is absorbed (347-350), and unless `rgb_only` the feature pass runs
on the mask-selected primitives with payload
`pc.get_loc_feature[visible_mask].squeeze()` (shape-preservingly
L2-normalized when `norm_feat_bf_render`) and a hard-coded `tile_size=8`
(352-372).  The feature pass passes no `backgrounds`. -/
def render_gsplat_2dgs_model (nw nh : ℤ) (pc : GaussianPC) (bg_color : Option (List ℤ))
    (override_color : Option (List Nat)) (rgb_only : Bool) (longest_edge : ℤ)
    (has_rm : Bool) (radii : List ℤ) (retain_ok : Bool) :
    RenderResultM × List RasterCall :=
  ({ visibility_filter := visMask radii
     radii := radii
     viewspace_retained := absorb (retain_grad_op retain_ok)
     feature_map_present := !rgb_only },
   { scales := padScales pc.scaling
     colors_shape := colorsShape pc override_color
     width := (capResolution nw nh longest_edge).1
     height := (capResolution nw nh longest_edge).2
     backgrounds := some (widen_bg_2dgs bg_color)
     tile_size := none
     has_rasterize_mode := false } ::
   if rgb_only then [] else
   [{ scales := maskSelect (padScales pc.scaling) (visMask radii)
      colors_shape := squeezeAll [visCount radii, pc.featDim]
      width := (capResolution nw nh longest_edge).1
      height := (capResolution nw nh longest_edge).2
      backgrounds := none
      tile_size := some 8
      has_rasterize_mode := false }])

/-- `render_gsplat` (lines 128-253).  If `get_scaling` has 2 columns the
call is forwarded unchanged to `render_gsplat_2dgs` (149-161).  Otherwise:
appearance payload selection (163-168), background default
`torch.zeros(3)` (170-171), resolution cap (174-178) - again applied
before pass 1, so both passes render at the capped dimensions - pass 1
with the unpadded scales (193-209), visibility mask `radii > 0` (214),
absorbed `retain_grad` (215-218), and unless `rgb_only` the feature pass
on the mask-selected primitives (221-240), which passes no `backgrounds`
and no `tile_size`.  `**rasterize_args` (including any `rasterize_mode`)
is forwarded untouched on this volumetric path. -/
def render_gsplat_model (nw nh : ℤ) (pc : GaussianPC) (bg_color : Option (List ℤ))
    (override_color : Option (List Nat)) (rgb_only : Bool) (longest_edge : ℤ)
    (has_rm : Bool) (radii : List ℤ) (retain_ok : Bool) :
    RenderResultM × List RasterCall :=
  if pc.scaleCols = 2 then
    render_gsplat_2dgs_model nw nh pc bg_color override_color rgb_only longest_edge
      has_rm radii retain_ok
  else
  ({ visibility_filter := visMask radii
     radii := radii
     viewspace_retained := absorb (retain_grad_op retain_ok)
     feature_map_present := !rgb_only },
   { scales := pc.scaling
     colors_shape := colorsShape pc override_color
     width := (capResolution nw nh longest_edge).1
     height := (capResolution nw nh longest_edge).2
     backgrounds := some (bg_color.getD [0, 0, 0])
     tile_size := none
     has_rasterize_mode := has_rm } ::
   if rgb_only then [] else
   [{ scales := maskSelect pc.scaling (visMask radii)
      colors_shape := squeezeAll [visCount radii, pc.featDim]
      width := (capResolution nw nh longest_edge).1
      height := (capResolution nw nh longest_edge).2
      backgrounds := none
      tile_size := none
      has_rasterize_mode := has_rm }])

/-- `render_from_pose_gsplat_2dgs` (lines 522-642).  A caller-supplied
`rasterize_mode` is deleted first (540-541), scales are padded (548-554),
the background defaults to `torch.zeros(4)` when `None` (569-570) - note
that, unlike `render_gsplat_2dgs`, a SUPPLIED background is forwarded
unchanged, with no 3-to-4-channel widening - pass 1 runs at the explicit
`int(width)`, `int(height)` (572-591), and unless `rgb_only` the feature
pass runs on mask-selected primitives with `tile_size=8` and no
`backgrounds` (604-624).  There is no resolution cap on this entry point.
This entry point has no `override_color` parameter: the payload is always
`pc.get_features`. -/
def render_from_pose_gsplat_2dgs_model (w h : ℤ) (pc : GaussianPC)
    (bg_color : Option (List ℤ)) (rgb_only : Bool) (has_rm : Bool)
    (radii : List ℤ) (retain_ok : Bool) : RenderResultM × List RasterCall :=
  ({ visibility_filter := visMask radii
     radii := radii
     viewspace_retained := absorb (retain_grad_op retain_ok)
     feature_map_present := !rgb_only },
   { scales := padScales pc.scaling
     colors_shape := [pc.n, pc.shK, 3]
     width := w
     height := h
     backgrounds := some (bg_color.getD [0, 0, 0, 0])
     tile_size := none
     has_rasterize_mode := false } ::
   if rgb_only then [] else
   [{ scales := maskSelect (padScales pc.scaling) (visMask radii)
      colors_shape := squeezeAll [visCount radii, pc.featDim]
      width := w
      height := h
      backgrounds := none
      tile_size := some 8
      has_rasterize_mode := false }])

/-- `render_from_pose_gsplat` (lines 394-519).  If `get_scaling` has 2
columns the call is forwarded to `render_from_pose_gsplat_2dgs` (418-433).
Otherwise the background defaults to `torch.zeros(3)` (448-449), pass 1
runs at the explicit `int(width)`, `int(height)` with the unpadded scales
(451-468), `retain_grad` is absorbed (479-482), and unless `rgb_only` the
feature pass runs on the mask-selected primitives (484-503) with no
`backgrounds` and no `tile_size`.  `**rasterize_args` is forwarded
untouched.  No `override_color` parameter exists on this entry point. -/
def render_from_pose_gsplat_model (w h : ℤ) (pc : GaussianPC)
    (bg_color : Option (List ℤ)) (rgb_only : Bool) (has_rm : Bool)
    (radii : List ℤ) (retain_ok : Bool) : RenderResultM × List RasterCall :=
  if pc.scaleCols = 2 then
    render_from_pose_gsplat_2dgs_model w h pc bg_color rgb_only has_rm radii retain_ok
  else
  ({ visibility_filter := visMask radii
     radii := radii
     viewspace_retained := absorb (retain_grad_op retain_ok)
     feature_map_present := !rgb_only },
   { scales := pc.scaling
     colors_shape := [pc.n, pc.shK, 3]
     width := w
     height := h
     backgrounds := some (bg_color.getD [0, 0, 0])
     tile_size := none
     has_rasterize_mode := has_rm } ::
   if rgb_only then [] else
   [{ scales := maskSelect pc.scaling (visMask radii)
      colors_shape := squeezeAll [visCount radii, pc.featDim]
      width := w
      height := h
      backgrounds := none
      tile_size := none
      has_rasterize_mode := has_rm }])

/-- Outcome of the forward render inside a visibility prober: the external
rasterizer either returns normally or raises (propagated unmodified). -/
inductive ProbeRender
  | ok
  | raised
deriving DecidableEq

/-- Outcome of `colors.sum().backward()` inside a visibility prober: either
it completes, accumulating the gradient rows `g` into `means3D.grad`, or it
raises after having accumulated the rows `acc` (a backward pass that fails,
e.g. on device exhaustion, may already have written gradients into leaf
buffers before raising). -/
inductive ProbeBackward
  | ok (g : List (List ℤ))
  | raised (acc : List (List ℤ))
deriving DecidableEq

/-- Gradient accumulation into the `means3D.grad` buffer (element-wise
`+=`, the autograd accumulation semantics). -/
def addGrads (buf g : List (List ℤ)) : List (List ℤ) :=
  List.zipWith (fun r s => List.zipWith (· + ·) r s) buf g

/-- `means3D.grad.zero_()` (lines 66, 123): every entry of the buffer is
overwritten with 0 in place. -/
def zeroGrads (buf : List (List ℤ)) : List (List ℤ) :=
  buf.map (fun r => r.map (fun _ => 0))

/-- `grad.norm(dim=-1) > 0` for one primitive's gradient row: the Euclidean
norm of a row is positive iff some component is nonzero. -/
def gradNormPos (v : List ℤ) : Bool :=
  v.any (fun x => decide (x ≠ 0))

/-- Result of a visibility prober call: `outcome` is the returned mask or
the propagated exception, `gradBuffer` is the state of `means3D.grad` when
the call exits, `call` records the arguments of the single rasterizer
invocation the prober makes. -/
inductive ProbeOutcome
  | ok (mask : List Bool)
  | raised
deriving DecidableEq

structure ProbeResult where
  outcome : ProbeOutcome
  gradBuffer : List (List ℤ)
  call : RasterCall
deriving DecidableEq

/-- `get_render_visible_mask_2dgs` (lines 71-125): scales are padded
(95-103), one `rasterization_2dgs` call renders colors at the explicit
width/height (no cap, no background, no tile_size; `**rasterize_args` is
forwarded untouched, including any `rasterize_mode`), then
`colors.sum().backward()` (121), the mask is read as
`means3D.grad.norm(dim=-1) > 0` (122), and `means3D.grad.zero_()` runs
(123).  The read-and-zero steps execute only when both the render and the
backward pass return normally; a raised exception propagates with the
buffer left in whatever state the failing step produced. -/
def get_render_visible_mask_2dgs_model (pc : GaussianPC) (w h : ℤ)
    (grad0 : List (List ℤ)) (render_outcome : ProbeRender)
    (backward_outcome : ProbeBackward) (has_rm : Bool) : ProbeResult :=
  { call := { scales := padScales pc.scaling
              colors_shape := [pc.n, pc.shK, 3]
              width := w
              height := h
              backgrounds := none
              tile_size := none
              has_rasterize_mode := has_rm }
    outcome :=
      match render_outcome, backward_outcome with
      | ProbeRender.raised, _ => ProbeOutcome.raised
      | ProbeRender.ok, ProbeBackward.raised _ => ProbeOutcome.raised
      | ProbeRender.ok, ProbeBackward.ok g =>
          ProbeOutcome.ok ((addGrads grad0 g).map gradNormPos)
    gradBuffer :=
      match render_outcome, backward_outcome with
      | ProbeRender.raised, _ => grad0
      | ProbeRender.ok, ProbeBackward.raised acc => addGrads grad0 acc
      | ProbeRender.ok, ProbeBackward.ok g => zeroGrads (addGrads grad0 g) }

/-- `get_render_visible_mask` (lines 22-68): if `get_scaling` has 2 columns
the call is forwarded to `get_render_visible_mask_2dgs` (26-27); otherwise
one `rasterization` call renders colors with the unpadded scales (49-62),
then the same backward / mask-read / zero sequence runs (64-66), again with
the zeroing reached only on the fully successful path. -/
def get_render_visible_mask_model (pc : GaussianPC) (w h : ℤ)
    (grad0 : List (List ℤ)) (render_outcome : ProbeRender)
    (backward_outcome : ProbeBackward) (has_rm : Bool) : ProbeResult :=
  if pc.scaleCols = 2 then
    get_render_visible_mask_2dgs_model pc w h grad0 render_outcome backward_outcome has_rm
  else
  { call := { scales := pc.scaling
              colors_shape := [pc.n, pc.shK, 3]
              width := w
              height := h
              backgrounds := none
              tile_size := none
              has_rasterize_mode := has_rm }
    outcome :=
      match render_outcome, backward_outcome with
      | ProbeRender.raised, _ => ProbeOutcome.raised
      | ProbeRender.ok, ProbeBackward.raised _ => ProbeOutcome.raised
      | ProbeRender.ok, ProbeBackward.ok g =>
          ProbeOutcome.ok ((addGrads grad0 g).map gradNormPos)
    gradBuffer :=
      match render_outcome, backward_outcome with
      | ProbeRender.raised, _ => grad0
      | ProbeRender.ok, ProbeBackward.raised acc => addGrads grad0 acc
      | ProbeRender.ok, ProbeBackward.ok g => zeroGrads (addGrads grad0 g) }

/-- A 3x3 pinhole intrinsics matrix, by its four nontrivial entries:
`[[fx, 0, cx], [0, fy, cy], [0, 0, 1]]`. -/
structure Intrinsics where
  fx : ℝ
  fy : ℝ
  cx : ℝ
  cy : ℝ

/-- What the intrinsics derivation can do in the source: return a matrix,
or raise Python's ZeroDivisionError from `width / (2 * tanfovx)` when a
tangent is exactly zero. -/
inductive IntrinsicsOutcome
  | ok (K : Intrinsics)
  | zeroDivisionError

/-- What the specification says the intrinsics derivation does: return a
matrix or fail with `InvalidGeometry`. -/
inductive IntrinsicsSpecOutcome
  | ok (K : Intrinsics)
  | invalidGeometry

/-- The intrinsics derivation as the source writes it (lines 179-190,
293-304, 435-446, 556-567, identical in all four entry points):
`tanfovx = math.tan(fovx * 0.5); focal_length_x = width / (2 * tanfovx)`
and similarly for y, with principal point `(width/2, height/2)`.  There is
no validation of the field-of-view angles or of the dimensions: the only
failure is the division by zero when a tangent is exactly 0. -/
noncomputable def buildIntrinsics (fovx fovy w h : ℝ) : IntrinsicsOutcome :=
  if Real.tan (fovx * (1 / 2)) = 0 ∨ Real.tan (fovy * (1 / 2)) = 0 then
    IntrinsicsOutcome.zeroDivisionError
  else
    IntrinsicsOutcome.ok
      { fx := w / (2 * Real.tan (fovx * (1 / 2)))
        fy := h / (2 * Real.tan (fovy * (1 / 2)))
        cx := w / 2
        cy := h / 2 }

/-- The intrinsics derivation as claim C5 and spec §4.1 state it: fail with
`InvalidGeometry` whenever a field-of-view angle is ≤ 0 or ≥ π or a
dimension is ≤ 0, succeed with the pinhole formulas otherwise.  This
definition follows the spec's words; it is compared against
`buildIntrinsics`, which follows the source. -/
noncomputable def buildIntrinsics_specClaim (fovx fovy w h : ℝ) : IntrinsicsSpecOutcome :=
  if fovx ≤ 0 ∨ Real.pi ≤ fovx ∨ fovy ≤ 0 ∨ Real.pi ≤ fovy ∨ w ≤ 0 ∨ h ≤ 0 then
    IntrinsicsSpecOutcome.invalidGeometry
  else
    IntrinsicsSpecOutcome.ok
      { fx := w / (2 * Real.tan (fovx * (1 / 2)))
        fy := h / (2 * Real.tan (fovy * (1 / 2)))
        cx := w / 2
        cy := h / 2 }

inductive Variant
  | planar
  | volumetric
deriving DecidableEq

/-- The variant dispatch as claim C6 and spec §7 state it: scale column
count 2 selects the planar pipeline, 3 the volumetric pipeline, and any
other count fails with `ShapeMismatch` before dispatching.  This definition
follows the spec's words; the source's dispatch (`if scales.shape[1] == 2`
at lines 149, 418 with no other test) is embedded in `render_gsplat_model`
and `render_from_pose_gsplat_model`. -/
def dispatch_specClaim (scaleCols : Nat) : Except RenderError Variant :=
  if scaleCols = 2 then Except.ok Variant.planar
  else if scaleCols = 3 then Except.ok Variant.volumetric
  else Except.error RenderError.shapeMismatch

/-- A volumetric fixture: 2 primitives, 3 scale columns. -/
def pcVol : GaussianPC :=
  { n := 2, scaleCols := 3, shK := 1, featDim := 4
    scaling := [[1, 1, 1], [2, 2, 2]] }

/-- A planar fixture: 1 primitive, 2 scale columns. -/
def pcPlanar : GaussianPC :=
  { n := 1, scaleCols := 2, shK := 1, featDim := 4, scaling := [[1, 2]] }

/-- A fixture whose scale attribute has neither 2 nor 3 columns. -/
def pcCols4 : GaussianPC :=
  { n := 1, scaleCols := 4, shK := 1, featDim := 4, scaling := [[1, 1, 1, 1]] }

/-- A volumetric fixture whose local-feature dimension is 1. -/
def pcFeat1 : GaussianPC :=
  { n := 2, scaleCols := 3, shK := 1, featDim := 1
    scaling := [[1, 1, 1], [2, 2, 2]] }

/-- A scale row is "padded planar": exactly 3 entries, the third equal 1. -/
def padded3 (row : List ℤ) : Bool :=
  decide (row.length = 3 ∧ row.getLast? = some 1)

/-- Every entry of every row of the buffer is 0. -/
def allZeroRows (buf : List (List ℤ)) : Bool :=
  buf.all (fun r => r.all (fun x => decide (x = 0)))

theorem mem_maskSelect {α : Type} {x : α} {l : List α} {m : List Bool}
    (h : x ∈ maskSelect l m) : x ∈ l := by
  induction l generalizing m with
  | nil => simp [maskSelect] at h
  | cons a as ih =>
    cases m with
    | nil => simp [maskSelect] at h
    | cons b bs =>
      cases b with
      | false =>
        simp only [maskSelect, if_neg, Bool.false_eq_true, not_false_iff] at h
        exact List.mem_cons_of_mem _ (ih h)
      | true =>
        simp only [maskSelect, if_pos] at h
        rcases List.mem_cons.mp h with h1 | h2
        · exact h1 ▸ List.mem_cons_self a as
        · exact List.mem_cons_of_mem _ (ih h2)

theorem all_maskSelect {α : Type} {p : α → Bool} {l : List α} (m : List Bool)
    (h : l.all p = true) : (maskSelect l m).all p = true :=
  List.all_eq_true.mpr fun x hx => List.all_eq_true.mp h x (mem_maskSelect hx)

theorem all_padScales {s : List (List ℤ)} (h : ∀ r ∈ s, r.length = 2) :
    (padScales s).all padded3 = true := by
  refine List.all_eq_true.mpr fun row hrow => ?_
  simp only [padScales, List.mem_map] at hrow
  obtain ⟨r0, hr0, rfl⟩ := hrow
  simp [padded3, h r0 hr0, List.getLast?_concat]

theorem allZeroRows_zeroGrads (buf : List (List ℤ)) :
    allZeroRows (zeroGrads buf) = true := by
  refine List.all_eq_true.mpr fun row hrow => ?_
  simp only [zeroGrads, List.mem_map] at hrow
  obtain ⟨r0, _, rfl⟩ := hrow
  refine List.all_eq_true.mpr fun x hx => ?_
  simp only [List.mem_map] at hx
  obtain ⟨y, _, rfl⟩ := hx
  decide

theorem squeezeAll_pair {M D : Nat} (hD : D ≠ 1) :
    squeezeAll [M, D] = if M = 1 then [D] else [M, D] := by
  by_cases hM : M = 1
  · subst hM; simp [squeezeAll, List.filter, hD]
  · simp [squeezeAll, List.filter, hM, hD]

/-- C1: in all four render entry points the returned `visibility_filter`
equals `radii > 0` element-wise, where `radii` is the per-primitive screen
radius returned in the same result record. -/
theorem C1_visibility_filter_eq_radii_pos
    (nw nh w h longest_edge : ℤ) (pc : GaussianPC) (bg : Option (List ℤ))
    (oc : Option (List Nat)) (rgb_only has_rm retain_ok : Bool) (radii : List ℤ) :
    ((render_gsplat_model nw nh pc bg oc rgb_only longest_edge has_rm radii retain_ok).1.visibility_filter
      = visMask (render_gsplat_model nw nh pc bg oc rgb_only longest_edge has_rm radii retain_ok).1.radii)
    ∧ ((render_gsplat_2dgs_model nw nh pc bg oc rgb_only longest_edge has_rm radii retain_ok).1.visibility_filter
      = visMask (render_gsplat_2dgs_model nw nh pc bg oc rgb_only longest_edge has_rm radii retain_ok).1.radii)
    ∧ ((render_from_pose_gsplat_model w h pc bg rgb_only has_rm radii retain_ok).1.visibility_filter
      = visMask (render_from_pose_gsplat_model w h pc bg rgb_only has_rm radii retain_ok).1.radii)
    ∧ ((render_from_pose_gsplat_2dgs_model w h pc bg rgb_only has_rm radii retain_ok).1.visibility_filter
      = visMask (render_from_pose_gsplat_2dgs_model w h pc bg rgb_only has_rm radii retain_ok).1.radii) := by
  by_cases hc : pc.scaleCols = 2 <;>
    refine ⟨?_, ?_, ?_, ?_⟩ <;>
      simp [render_gsplat_model, render_gsplat_2dgs_model,
        render_from_pose_gsplat_model, render_from_pose_gsplat_2dgs_model, hc]

/-- C2 counterexample: with native resolution 1280x960 and the default
`longest_edge = 640`, the FIRST rasterizer invocation (the primary color
pass) of both camera-driven entry points renders at 640x480, not at the
native 1280x960 the claim requires: the cap is applied before pass 1, not
only to the feature pass. -/
theorem C2_counterexample :
    ((render_gsplat_model 1280 960 pcVol none none false 640 false [1, 0] true).2.map
        (fun c => (c.width, c.height)) = [(640, 480), (640, 480)])
    ∧ ((render_gsplat_2dgs_model 1280 960 pcPlanar none none false 640 false [1] true).2.map
        (fun c => (c.width, c.height)) = [(640, 480), (640, 480)])
    ∧ ((1280 : ℤ), (960 : ℤ)) ≠ ((640 : ℤ), (480 : ℤ)) := by decide

/-- C2 amended: in the camera-driven entry points the longest-edge cap is
applied before pass 1, so EVERY rasterizer invocation - the primary color
pass as well as the auxiliary feature pass - renders at the (possibly
downscaled) `capResolution` dimensions; the primary pass does not keep the
native resolution. -/
theorem C2_cap_applies_to_both_passes
    (nw nh longest_edge : ℤ) (pc : GaussianPC) (bg : Option (List ℤ))
    (oc : Option (List Nat)) (rgb_only has_rm retain_ok : Bool) (radii : List ℤ) :
    (((render_gsplat_model nw nh pc bg oc rgb_only longest_edge has_rm radii retain_ok).2.all
        (fun c => decide (c.width = (capResolution nw nh longest_edge).1 ∧
                          c.height = (capResolution nw nh longest_edge).2))) = true)
    ∧ (((render_gsplat_2dgs_model nw nh pc bg oc rgb_only longest_edge has_rm radii retain_ok).2.all
        (fun c => decide (c.width = (capResolution nw nh longest_edge).1 ∧
                          c.height = (capResolution nw nh longest_edge).2))) = true) := by
  by_cases hc : pc.scaleCols = 2 <;> cases rgb_only <;>
    refine ⟨?_, ?_⟩ <;>
      simp [render_gsplat_model, render_gsplat_2dgs_model, hc]

/-- C8: in both planar entry points a caller-supplied `rasterize_mode`
passthrough option is removed before every planar rasterizer invocation,
and when the feature pass runs it fixes `tile_size = 8` while the
appearance pass passes no `tile_size` at all (the rasterizer's default
tiling). -/
theorem C8_rasterize_mode_stripped_and_tile8
    (nw nh w h longest_edge : ℤ) (pc : GaussianPC) (bg : Option (List ℤ))
    (oc : Option (List Nat)) (rgb_only has_rm retain_ok : Bool) (radii : List ℤ) :
    (((render_gsplat_2dgs_model nw nh pc bg oc rgb_only longest_edge has_rm radii retain_ok).2.all
        (fun c => !c.has_rasterize_mode)) = true)
    ∧ (((render_from_pose_gsplat_2dgs_model w h pc bg rgb_only has_rm radii retain_ok).2.all
        (fun c => !c.has_rasterize_mode)) = true)
    ∧ ((render_gsplat_2dgs_model nw nh pc bg oc false longest_edge has_rm radii retain_ok).2.map
        (fun c => c.tile_size) = [none, some 8])
    ∧ ((render_from_pose_gsplat_2dgs_model w h pc bg false has_rm radii retain_ok).2.map
        (fun c => c.tile_size) = [none, some 8]) := by
  cases rgb_only <;>
    refine ⟨?_, ?_, ?_, ?_⟩ <;>
      simp [render_gsplat_2dgs_model, render_from_pose_gsplat_2dgs_model]

/-- C9: a failing gradient-retention request in pass 1 is an exception
(`GradientUnavailable`), yet it is absorbed by the `try/except: pass` in
every entry point: the call still completes with an identical result
record and identical rasterizer invocations, the only difference being
that the returned `viewspace_points` tensor carries no retained
gradient. -/
theorem C9_gradient_unavailable_absorbed
    (nw nh w h longest_edge : ℤ) (pc : GaussianPC) (bg : Option (List ℤ))
    (oc : Option (List Nat)) (rgb_only has_rm : Bool) (radii : List ℤ) :
    retain_grad_op false = Except.error RenderError.gradientUnavailable
    ∧ (render_gsplat_model nw nh pc bg oc rgb_only longest_edge has_rm radii false
        = ({ (render_gsplat_model nw nh pc bg oc rgb_only longest_edge has_rm radii true).1 with
              viewspace_retained := false },
           (render_gsplat_model nw nh pc bg oc rgb_only longest_edge has_rm radii true).2))
    ∧ (render_gsplat_model nw nh pc bg oc rgb_only longest_edge has_rm radii true).1.viewspace_retained = true
    ∧ (render_gsplat_2dgs_model nw nh pc bg oc rgb_only longest_edge has_rm radii false
        = ({ (render_gsplat_2dgs_model nw nh pc bg oc rgb_only longest_edge has_rm radii true).1 with
              viewspace_retained := false },
           (render_gsplat_2dgs_model nw nh pc bg oc rgb_only longest_edge has_rm radii true).2))
    ∧ (render_gsplat_2dgs_model nw nh pc bg oc rgb_only longest_edge has_rm radii true).1.viewspace_retained = true
    ∧ (render_from_pose_gsplat_model w h pc bg rgb_only has_rm radii false
        = ({ (render_from_pose_gsplat_model w h pc bg rgb_only has_rm radii true).1 with
              viewspace_retained := false },
           (render_from_pose_gsplat_model w h pc bg rgb_only has_rm radii true).2))
    ∧ (render_from_pose_gsplat_model w h pc bg rgb_only has_rm radii true).1.viewspace_retained = true
    ∧ (render_from_pose_gsplat_2dgs_model w h pc bg rgb_only has_rm radii false
        = ({ (render_from_pose_gsplat_2dgs_model w h pc bg rgb_only has_rm radii true).1 with
              viewspace_retained := false },
           (render_from_pose_gsplat_2dgs_model w h pc bg rgb_only has_rm radii true).2))
    ∧ (render_from_pose_gsplat_2dgs_model w h pc bg rgb_only has_rm radii true).1.viewspace_retained = true := by
  by_cases hc : pc.scaleCols = 2 <;>
    refine ⟨rfl, ?_, ?_, ?_, ?_, ?_, ?_, ?_, ?_⟩ <;>
      simp [render_gsplat_model, render_gsplat_2dgs_model,
        render_from_pose_gsplat_model, render_from_pose_gsplat_2dgs_model,
        absorb, retain_grad_op, hc]

/-- C3: whenever the primitive set's scale attribute has exactly 2 columns,
every dispatcher (both render dispatchers and the visibility-prober
dispatcher) routes to the planar (2DGS) pipeline, and every
planar-pipeline rasterizer invocation receives a scales tensor with
exactly 3 columns whose third column is identically 1. -/
theorem C3_planar_dispatch_and_padding
    (nw nh w h longest_edge : ℤ) (pc : GaussianPC) (bg : Option (List ℤ))
    (oc : Option (List Nat)) (rgb_only has_rm retain_ok : Bool) (radii : List ℤ)
    (grad0 : List (List ℤ)) (ro : ProbeRender) (bo : ProbeBackward)
    (hcols : pc.scaleCols = 2) (hrows : ∀ r ∈ pc.scaling, r.length = 2) :
    (render_gsplat_model nw nh pc bg oc rgb_only longest_edge has_rm radii retain_ok
      = render_gsplat_2dgs_model nw nh pc bg oc rgb_only longest_edge has_rm radii retain_ok)
    ∧ (render_from_pose_gsplat_model w h pc bg rgb_only has_rm radii retain_ok
      = render_from_pose_gsplat_2dgs_model w h pc bg rgb_only has_rm radii retain_ok)
    ∧ (get_render_visible_mask_model pc w h grad0 ro bo has_rm
      = get_render_visible_mask_2dgs_model pc w h grad0 ro bo has_rm)
    ∧ (((render_gsplat_2dgs_model nw nh pc bg oc rgb_only longest_edge has_rm radii retain_ok).2.all
        (fun c => c.scales.all padded3)) = true)
    ∧ (((render_from_pose_gsplat_2dgs_model w h pc bg rgb_only has_rm radii retain_ok).2.all
        (fun c => c.scales.all padded3)) = true)
    ∧ (((get_render_visible_mask_2dgs_model pc w h grad0 ro bo has_rm).call.scales.all
        padded3) = true) := by
  have hpad : (padScales pc.scaling).all padded3 = true := all_padScales hrows
  have hsel : ∀ m, (maskSelect (padScales pc.scaling) m).all padded3 = true :=
    fun m => all_maskSelect m hpad
  refine ⟨by simp [render_gsplat_model, hcols],
    by simp [render_from_pose_gsplat_model, hcols],
    by simp [get_render_visible_mask_model, hcols], ?_, ?_, ?_⟩ <;>
    cases rgb_only <;>
      simp [render_gsplat_2dgs_model, render_from_pose_gsplat_2dgs_model,
        get_render_visible_mask_2dgs_model, hpad, hsel]

/-- C3 witness: the hypotheses hold for the concrete planar fixture and the
theorem yields its dispatch equality and its padded feature-pass calls
there. -/
theorem C3_planar_dispatch_and_padding_witness :
    (pcPlanar.scaleCols = 2 ∧ (pcPlanar.scaling.all (fun r => decide (r.length = 2))) = true)
    ∧ render_gsplat_model 8 6 pcPlanar none none false 640 false [1] true
        = render_gsplat_2dgs_model 8 6 pcPlanar none none false 640 false [1] true
    ∧ ((render_gsplat_2dgs_model 8 6 pcPlanar none none false 640 false [1] true).2.all
        (fun c => c.scales.all padded3)) = true :=
  have h := C3_planar_dispatch_and_padding 8 6 8 6 640 pcPlanar none none false false true
    [1] [[0, 0, 0]] ProbeRender.ok (ProbeBackward.ok [[0, 0, 0]])
    (by decide) (by decide)
  ⟨⟨by decide, by decide⟩, h.1, h.2.2.2.1⟩

/-- C4 counterexample: a backward pass that raises after having accumulated
a nonzero gradient row exits the prober with the buffer NOT zeroed - the
zeroing step is unreachable on this exit path, contradicting the claim
that the buffer is zeroed on every exit regardless of outcome. -/
theorem C4_counterexample :
    ((get_render_visible_mask_model pcVol 4 4 [[0, 0, 0], [0, 0, 0]] ProbeRender.ok
        (ProbeBackward.raised [[1, 0, 0], [0, 0, 0]]) false).outcome = ProbeOutcome.raised)
    ∧ ((get_render_visible_mask_model pcVol 4 4 [[0, 0, 0], [0, 0, 0]] ProbeRender.ok
        (ProbeBackward.raised [[1, 0, 0], [0, 0, 0]]) false).gradBuffer
        = [[1, 0, 0], [0, 0, 0]])
    ∧ allZeroRows [[1, 0, 0], [0, 0, 0]] = false := by decide

/-- C4 amended: the probers zero the position-gradient buffer only on the
fully successful exit path (render and backward both return): there the
mask is the per-row nonzero test of the accumulated gradients and the
buffer leaves zeroed.  If the render raises, the exception propagates with
the buffer untouched; if the backward raises, the exception propagates
with whatever the failing backward accumulated left in the buffer. -/
theorem C4_grad_zeroed_only_on_success
    (pc : GaussianPC) (w h : ℤ) (grad0 g acc : List (List ℤ)) (has_rm : Bool)
    (bo : ProbeBackward) :
    ((get_render_visible_mask_model pc w h grad0 ProbeRender.ok (ProbeBackward.ok g) has_rm).outcome
        = ProbeOutcome.ok ((addGrads grad0 g).map gradNormPos))
    ∧ ((get_render_visible_mask_model pc w h grad0 ProbeRender.ok (ProbeBackward.ok g) has_rm).gradBuffer
        = zeroGrads (addGrads grad0 g))
    ∧ allZeroRows (zeroGrads (addGrads grad0 g)) = true
    ∧ ((get_render_visible_mask_model pc w h grad0 ProbeRender.raised bo has_rm).outcome
        = ProbeOutcome.raised)
    ∧ ((get_render_visible_mask_model pc w h grad0 ProbeRender.raised bo has_rm).gradBuffer = grad0)
    ∧ ((get_render_visible_mask_model pc w h grad0 ProbeRender.ok (ProbeBackward.raised acc) has_rm).outcome
        = ProbeOutcome.raised)
    ∧ ((get_render_visible_mask_model pc w h grad0 ProbeRender.ok (ProbeBackward.raised acc) has_rm).gradBuffer
        = addGrads grad0 acc)
    ∧ ((get_render_visible_mask_2dgs_model pc w h grad0 ProbeRender.ok (ProbeBackward.ok g) has_rm).outcome
        = ProbeOutcome.ok ((addGrads grad0 g).map gradNormPos))
    ∧ ((get_render_visible_mask_2dgs_model pc w h grad0 ProbeRender.ok (ProbeBackward.ok g) has_rm).gradBuffer
        = zeroGrads (addGrads grad0 g))
    ∧ ((get_render_visible_mask_2dgs_model pc w h grad0 ProbeRender.raised bo has_rm).outcome
        = ProbeOutcome.raised)
    ∧ ((get_render_visible_mask_2dgs_model pc w h grad0 ProbeRender.raised bo has_rm).gradBuffer = grad0)
    ∧ ((get_render_visible_mask_2dgs_model pc w h grad0 ProbeRender.ok (ProbeBackward.raised acc) has_rm).outcome
        = ProbeOutcome.raised)
    ∧ ((get_render_visible_mask_2dgs_model pc w h grad0 ProbeRender.ok (ProbeBackward.raised acc) has_rm).gradBuffer
        = addGrads grad0 acc) := by
  by_cases hc : pc.scaleCols = 2 <;>
    refine ⟨?_, ?_, allZeroRows_zeroGrads _, ?_, ?_, ?_, ?_, ?_, ?_, ?_, ?_, ?_, ?_⟩ <;>
      simp [get_render_visible_mask_model, get_render_visible_mask_2dgs_model, hc]

/-- C5 counterexample: for the out-of-range field of view -π/2 (which the
claim says must fail with InvalidGeometry) and dimensions 10x10, the
source's intrinsics derivation succeeds, returning the matrix with
fx = fy = -5 and principal point (5, 5), while the spec-side definition
fails with InvalidGeometry. -/
theorem C5_counterexample :
    buildIntrinsics (-(Real.pi / 2)) (-(Real.pi / 2)) 10 10
      = IntrinsicsOutcome.ok { fx := -5, fy := -5, cx := 5, cy := 5 }
    ∧ buildIntrinsics_specClaim (-(Real.pi / 2)) (-(Real.pi / 2)) 10 10
      = IntrinsicsSpecOutcome.invalidGeometry := by
  have harg : -(Real.pi / 2) * (1 / 2) = -(Real.pi / 4) := by ring
  have htan : Real.tan (-(Real.pi / 2) * (1 / 2)) = -1 := by
    rw [harg, Real.tan_neg, Real.tan_pi_div_four]
  constructor
  · rw [buildIntrinsics, htan]
    norm_num [Intrinsics.mk.injEq]
  · rw [buildIntrinsics_specClaim, if_pos]
    left
    linarith [Real.pi_pos]

/-- C5 amended: the source performs no field-of-view or dimension
validation at all.  For every field-of-view pair in (0, π) - and ANY
width/height, positive or not - the derivation succeeds with
fx = width / (2 tan(fovx/2)), fy = height / (2 tan(fovy/2)) and principal
point (width/2, height/2); its only failure mode is the division by zero
when a tangent is exactly 0, and no InvalidGeometry check exists, so
out-of-range inputs with nonzero tangents also succeed (see the
counterexample). -/
theorem C5_intrinsics_formula_no_validation
    (fovx fovy w h : ℝ) (h1 : 0 < fovx) (h2 : fovx < Real.pi)
    (h3 : 0 < fovy) (h4 : fovy < Real.pi) :
    buildIntrinsics fovx fovy w h
      = IntrinsicsOutcome.ok
          { fx := w / (2 * Real.tan (fovx * (1 / 2)))
            fy := h / (2 * Real.tan (fovy * (1 / 2)))
            cx := w / 2
            cy := h / 2 } := by
  have tx : 0 < Real.tan (fovx * (1 / 2)) :=
    Real.tan_pos_of_pos_of_lt_pi_div_two (by linarith) (by linarith)
  have ty : 0 < Real.tan (fovy * (1 / 2)) :=
    Real.tan_pos_of_pos_of_lt_pi_div_two (by linarith) (by linarith)
  rw [buildIntrinsics, if_neg]
  push_neg
  exact ⟨ne_of_gt tx, ne_of_gt ty⟩

/-- C5 witness: the amended theorem applied at fovx = fovy = π/2 and
width = height = 2, where tan(π/4) = 1, giving the identity-like matrix
with fx = fy = cx = cy = 1. -/
theorem C5_intrinsics_formula_no_validation_witness :
    (0 < Real.pi / 2 ∧ Real.pi / 2 < Real.pi)
    ∧ buildIntrinsics (Real.pi / 2) (Real.pi / 2) 2 2
        = IntrinsicsOutcome.ok { fx := 1, fy := 1, cx := 1, cy := 1 } := by
  have hp := Real.pi_pos
  have h1 : 0 < Real.pi / 2 := by linarith
  have h2 : Real.pi / 2 < Real.pi := by linarith
  have harg : Real.pi / 2 * (1 / 2) = Real.pi / 4 := by ring
  have htan : Real.tan (Real.pi / 2 * (1 / 2)) = 1 := by
    rw [harg, Real.tan_pi_div_four]
  have h := C5_intrinsics_formula_no_validation (Real.pi / 2) (Real.pi / 2) 2 2 h1 h2 h1 h2
  rw [htan] at h
  refine ⟨⟨h1, h2⟩, ?_⟩
  rw [h]
  norm_num

/-- C6 counterexample: a scale attribute with 4 columns (neither 2 nor 3).
The spec-side dispatcher fails with ShapeMismatch, but the source's
dispatcher routes the call into the volumetric pipeline: the rasterizer is
invoked with the 4-column scales as-is and the call returns a result
record, raising no error. -/
theorem C6_counterexample :
    dispatch_specClaim 4 = Except.error RenderError.shapeMismatch
    ∧ (render_gsplat_model 4 4 pcCols4 none none true 640 false [1] true).2.map
        (fun c => c.scales) = [[[1, 1, 1, 1]]]
    ∧ (render_gsplat_model 4 4 pcCols4 none none true 640 false [1] true).1.radii = [1] := by
  refine ⟨rfl, by decide, by decide⟩

/-- C6 amended: the source performs no shape validation before dispatch: a
scale attribute with any column count other than 2 (including counts that
are neither 2 nor 3) is dispatched to the volumetric pipeline and the
rasterizer is invoked with the scales exactly as stored; likewise a
supplied override color is forwarded as the pass-1 payload without any
check of its shape against the primitive count.  Shape errors, if any,
can only arise inside the external rasterizer. -/
theorem C6_no_local_shape_validation
    (nw nh w h longest_edge : ℤ) (pc : GaussianPC) (bg : Option (List ℤ))
    (s : List Nat) (rgb_only has_rm retain_ok : Bool) (radii : List ℤ)
    (hcols : pc.scaleCols ≠ 2) :
    ((render_gsplat_model nw nh pc bg (some s) rgb_only longest_edge has_rm radii retain_ok).2.head?.map
        (fun c => c.scales) = some pc.scaling)
    ∧ ((render_gsplat_model nw nh pc bg (some s) rgb_only longest_edge has_rm radii retain_ok).2.head?.map
        (fun c => c.colors_shape) = some s)
    ∧ ((render_from_pose_gsplat_model w h pc bg rgb_only has_rm radii retain_ok).2.head?.map
        (fun c => c.scales) = some pc.scaling) := by
  refine ⟨?_, ?_, ?_⟩ <;>
    simp [render_gsplat_model, render_from_pose_gsplat_model, hcols, colorsShape]

/-- C6 witness: the amended theorem at the 4-column fixture, with an
override-color shape [7, 3] that disagrees with the primitive count 1 and
is nevertheless forwarded. -/
theorem C6_no_local_shape_validation_witness :
    (decide (pcCols4.scaleCols ≠ 2) = true)
    ∧ (render_gsplat_model 4 4 pcCols4 none (some [7, 3]) true 640 false [1] true).2.head?.map
        (fun c => c.colors_shape) = some [7, 3] :=
  ⟨by decide,
   (C6_no_local_shape_validation 4 4 4 4 640 pcCols4 none [7, 3] true false true [1]
      (by decide)).2.1⟩

/-- C7 counterexample: `render_from_pose_gsplat_2dgs` with a caller-supplied
3-channel background forwards it to the planar rasterizer unchanged - 3
channels, not widened to 4 as the claim requires of every planar entry
point. -/
theorem C7_counterexample :
    ((render_from_pose_gsplat_2dgs_model 4 4 pcPlanar (some [5, 6, 7]) false false [1] true).2.head?.map
        (fun c => c.backgrounds) = some (some [5, 6, 7]))
    ∧ ([5, 6, 7] : List ℤ).length = 3
    ∧ ([5, 6, 7] : List ℤ).length ≠ 4 := by decide

/-- C7 amended: when no background is supplied every entry point defaults
to a zero vector of the variant's channel count (3 volumetric, 4 planar).
A caller-supplied 3-channel background is widened to 4 channels only in
the camera-driven planar entry point (`render_gsplat_2dgs`); the
pose-driven planar entry point (`render_from_pose_gsplat_2dgs`) forwards a
supplied background to the rasterizer unchanged. -/
theorem C7_background_handling
    (nw nh w h longest_edge : ℤ) (pc : GaussianPC) (oc : Option (List Nat))
    (rgb_only has_rm retain_ok : Bool) (radii : List ℤ) (b : List ℤ)
    (hcols : pc.scaleCols ≠ 2) (hb : b.length = 3) :
    ((render_gsplat_model nw nh pc none oc rgb_only longest_edge has_rm radii retain_ok).2.head?.map
        (fun c => c.backgrounds) = some (some [0, 0, 0]))
    ∧ ((render_from_pose_gsplat_model w h pc none rgb_only has_rm radii retain_ok).2.head?.map
        (fun c => c.backgrounds) = some (some [0, 0, 0]))
    ∧ ((render_gsplat_2dgs_model nw nh pc none oc rgb_only longest_edge has_rm radii retain_ok).2.head?.map
        (fun c => c.backgrounds) = some (some [0, 0, 0, 0]))
    ∧ ((render_from_pose_gsplat_2dgs_model w h pc none rgb_only has_rm radii retain_ok).2.head?.map
        (fun c => c.backgrounds) = some (some [0, 0, 0, 0]))
    ∧ ((render_gsplat_2dgs_model nw nh pc (some b) oc rgb_only longest_edge has_rm radii retain_ok).2.head?.map
        (fun c => c.backgrounds) = some (some (b ++ b.take 1)))
    ∧ (b ++ b.take 1).length = 4
    ∧ ((render_from_pose_gsplat_2dgs_model w h pc (some b) rgb_only has_rm radii retain_ok).2.head?.map
        (fun c => c.backgrounds) = some (some b)) := by
  refine ⟨?_, ?_, ?_, ?_, ?_, ?_, ?_⟩ <;>
    simp [render_gsplat_model, render_gsplat_2dgs_model,
      render_from_pose_gsplat_model, render_from_pose_gsplat_2dgs_model,
      widen_bg_2dgs, hcols, hb]

/-- C7 witness: the amended theorem at the volumetric fixture with the
supplied 3-channel background [8, 9, 10], whose camera-driven planar
widening appends the first channel. -/
theorem C7_background_handling_witness :
    (decide (pcVol.scaleCols ≠ 2) = true ∧ ([8, 9, 10] : List ℤ).length = 3)
    ∧ (render_gsplat_2dgs_model 4 4 pcVol (some [8, 9, 10]) none true 640 false [] true).2.head?.map
        (fun c => c.backgrounds) = some (some ([8, 9, 10] ++ ([8, 9, 10] : List ℤ).take 1)) :=
  ⟨⟨by decide, by decide⟩,
   (C7_background_handling 4 4 4 4 640 pcVol none true false true [] [8, 9, 10]
      (by decide) (by decide)).2.2.2.2.1⟩

/-- C10 counterexample: with local-feature dimension 1 and two visible
primitives, `loc_feature[visible_mask].squeeze()` has shape [2], not
[2, 1]: `.squeeze()` also removes a size-1 FEATURE axis, so the claim's
"for any other visible count the payload keeps shape [M, D]" fails. -/
theorem C10_counterexample :
    (((render_gsplat_model 4 4 pcFeat1 none none false 640 false [1, 2] true).2.map
        (fun c => c.colors_shape))[1]? = some [2])
    ∧ pcFeat1.featDim = 1
    ∧ visCount [1, 2] = 2
    ∧ ([2] : List Nat) ≠ [2, 1] := by decide

/-- C10 amended: provided the local-feature dimension D is not itself 1,
the pass-2 payload shape in every entry point is exactly as the claim
says: `squeeze()` of the mask-selected [M, D] tensor, which is [D] when
exactly one primitive is visible and [M, D] for every other visible count
M (including 0).  When D = 1 the payload degenerates further (see the
counterexample). -/
theorem C10_feature_payload_shape
    (nw nh w h longest_edge : ℤ) (pc : GaussianPC) (bg : Option (List ℤ))
    (oc : Option (List Nat)) (has_rm retain_ok : Bool) (radii : List ℤ)
    (hD : pc.featDim ≠ 1) :
    (((render_gsplat_model nw nh pc bg oc false longest_edge has_rm radii retain_ok).2.map
        (fun c => c.colors_shape))[1]?
      = some (if visCount radii = 1 then [pc.featDim] else [visCount radii, pc.featDim]))
    ∧ (((render_gsplat_2dgs_model nw nh pc bg oc false longest_edge has_rm radii retain_ok).2.map
        (fun c => c.colors_shape))[1]?
      = some (if visCount radii = 1 then [pc.featDim] else [visCount radii, pc.featDim]))
    ∧ (((render_from_pose_gsplat_model w h pc bg false has_rm radii retain_ok).2.map
        (fun c => c.colors_shape))[1]?
      = some (if visCount radii = 1 then [pc.featDim] else [visCount radii, pc.featDim]))
    ∧ (((render_from_pose_gsplat_2dgs_model w h pc bg false has_rm radii retain_ok).2.map
        (fun c => c.colors_shape))[1]?
      = some (if visCount radii = 1 then [pc.featDim] else [visCount radii, pc.featDim])) := by
  have hsq := squeezeAll_pair (M := visCount radii) hD
  by_cases hc : pc.scaleCols = 2 <;>
    refine ⟨?_, ?_, ?_, ?_⟩ <;>
      simp [render_gsplat_model, render_gsplat_2dgs_model,
        render_from_pose_gsplat_model, render_from_pose_gsplat_2dgs_model, hc, hsq]

/-- C10 witness: the amended theorem at the volumetric fixture (feature
dimension 4) with exactly one visible primitive. -/
theorem C10_feature_payload_shape_witness :
    (decide (pcVol.featDim ≠ 1) = true)
    ∧ ((render_gsplat_model 4 4 pcVol none none false 640 false [1, -1] true).2.map
        (fun c => c.colors_shape))[1]?
      = some (if visCount [1, -1] = 1 then [pcVol.featDim] else [visCount [1, -1], pcVol.featDim]) :=
  ⟨by decide,
   (C10_feature_payload_shape 4 4 4 4 640 pcVol none none false true [1, -1] (by decide)).1⟩
